/-
  Verification of the tunnel-ai test-automation pipeline.

  Shallow embedding of the core agents of the repository:
    - agents/healer.py       (SelfHealingAgent)
    - agents/planner.py      (TestPlanningAgent._convert_to_test_plan)
    - agents/validator.py    (ValidationAgent.validate)
    - agents/executor.py     (TestExecutionAgent.execute)
    - agents/utils/page_analyzer.py (getSelector inside page_script)
    - orchestrator/test_workflow.py (TestAutomationWorkflow, LangGraph graph)

  Conventions of the embedding:
    - Python strings are Lean Strings; character-level work happens on List Char.
    - A Python value that may be None is an Option.
    - A Python call that may raise is an Except (the error carries str(e)) or,
      where only the fact of raising matters, an Except Unit.
    - Language-model invocations are oracles passed in as parameters
      (Option String: some content = the call returned, none = it raised).
    - Floats (time.time(), durations) and datetimes are modelled as Nat ticks;
      no claim depends on their arithmetic.
    - Regular-expression substitutions from the source (re.sub) are embedded as
      explicit left-to-right scanners that advance one character on a failed
      match attempt, exactly like the leftmost-match semantics of re.sub.
      The scanners take a fuel argument; the wrappers pass the input length,
      which is enough fuel since every step consumes at least one character.
-/
import Mathlib

namespace TunnelAI

/-! ## Character and string helpers -/

/-- The single-quote character, Unicode 39.  The source quotes selectors
with it, e.g. the pattern of `re.search` in `_apply_fallback_selector_fix`
(a quote, one or more non-quote characters, a quote). -/
def sq : Char := Char.ofNat 39

/-- The single-quote character as a one-character string. -/
def sqs : String := String.mk [sq]

/-- Is `pat` a prefix of `s`? -/
def isPre : List Char → List Char → Bool
  | [], _ => true
  | _ :: _, [] => false
  | a :: as, b :: bs => a == b && isPre as bs

/-- Does `s` contain `pat` as a contiguous substring?  Embeds Python
`pat in s`. -/
def containsSub : List Char → List Char → Bool
  | pat, [] => pat.isEmpty
  | pat, c :: t => isPre pat (c :: t) || containsSub pat t

/-- ASCII lowering of one character; embeds the effect of Python
`str.lower` on the ASCII strings the source manipulates. -/
def lowerChar (c : Char) : Char :=
  if c.toNat ≥ 65 && c.toNat ≤ 90 then Char.ofNat (c.toNat + 32) else c

/-- Embeds Python `s.lower()` (ASCII). -/
def lowerStr (s : String) : String :=
  String.mk (s.data.map lowerChar)

/-- Python `\s` whitespace class: space, tab, newline, carriage return,
vertical tab, form feed. -/
def isPySpace (c : Char) : Bool :=
  c == ' ' || c == '\t' || c == '\n' || c == '\r' ||
  c == Char.ofNat 11 || c == Char.ofNat 12

/-- Decimal value of a digit string, as Python `int` reads it. -/
def digitsToNat (ds : List Char) : Nat :=
  ds.foldl (fun n c => 10 * n + (c.toNat - 48)) 0

/-- Is a Python-truthy string present?  Embeds `if error:` style tests on an
optional string: None and the empty string are falsy. -/
def strTruthy : Option String → Bool
  | none => false
  | some s => !s.isEmpty

/-! ## Healer: error classification (agents/healer.py `_identify_error_type`) -/

/-- Embeds `SelfHealingAgent._identify_error_type`: ordered substring
matching over the lowered error text. -/
def identifyErrorType (error : String) : String :=
  let el := (lowerStr error).data
  if containsSub "selector".data el || containsSub "element".data el then
    "selector"
  else if containsSub "timeout".data el then
    "timeout"
  else if containsSub "navigation".data el || containsSub "goto".data el then
    "navigation"
  else
    "general"

/-! ## Healer: deterministic fallback transforms

The `re.sub` calls of `_apply_fallback_timeout_fix`,
`_apply_fallback_selector_fix` and the literal `str.replace` calls are
embedded as fueled left-to-right scanners. -/

/-- Scanner for `re.sub(r"timeout:\s*(\d+)", lambda m: f"timeout: &#123;int(m.group(1)) * 2&#125;", code)`
(the braces of the Python f-string are written here as HTML entities to keep
this comment plain).  At each position: if the literal `timeout:` matches,
consume the maximal whitespace run and then a maximal nonempty digit run;
on success emit the doubled replacement, otherwise move on one character. -/
def subTimeoutF : Nat → List Char → List Char
  | _, [] => []
  | 0, s => s
  | fuel + 1, c :: cs =>
    if isPre "timeout:".data (c :: cs) then
      let rest := (c :: cs).drop 8
      let rest2 := rest.dropWhile isPySpace
      let ds := rest2.takeWhile Char.isDigit
      if ds.isEmpty then
        c :: subTimeoutF fuel cs
      else
        ("timeout: ".data ++ (Nat.repr (2 * digitsToNat ds)).data)
          ++ subTimeoutF fuel (rest2.dropWhile Char.isDigit)
    else
      c :: subTimeoutF fuel cs

/-- The navigation-wait statement appended after `goto` calls by the
timeout fallback: newline plus an await of waitForLoadState(networkidle). -/
def waitNetworkIdle : String :=
  "\nawait page.waitForLoadState(" ++ sqs ++ "networkidle" ++ sqs ++ ");"

/-- Scanner for the goto substitution of `_apply_fallback_timeout_fix`:
a match is the literal `await page.goto(` followed by a maximal nonempty run
of non-`)` characters, then `);`; the match is kept (regex group 0) and the
network-idle wait statement is appended after it. -/
def subGotoF : Nat → List Char → List Char
  | _, [] => []
  | 0, s => s
  | fuel + 1, c :: cs =>
    if isPre "await page.goto(".data (c :: cs) then
      let rest := (c :: cs).drop 16
      let run := rest.takeWhile (fun d => !(d == ')'))
      let rest2 := rest.dropWhile (fun d => !(d == ')'))
      if run.isEmpty then
        c :: subGotoF fuel cs
      else
        match rest2 with
        | ')' :: ';' :: rest3 =>
          ("await page.goto(".data ++ run ++ ");".data ++ waitNetworkIdle.data)
            ++ subGotoF fuel rest3
        | _ => c :: subGotoF fuel cs
    else
      c :: subGotoF fuel cs

/-- Scanner for the middle `re.sub` of `_apply_fallback_timeout_fix`, which
replaces `await page.(click|fill|waitForSelector)(` with itself (the
replacement reconstructs the match, so the substitution is the identity). -/
def subClickFillWaitF : Nat → List Char → List Char
  | _, [] => []
  | 0, s => s
  | fuel + 1, c :: cs =>
    if isPre "await page.click(".data (c :: cs) then
      "await page.click(".data ++ subClickFillWaitF fuel ((c :: cs).drop 17)
    else if isPre "await page.fill(".data (c :: cs) then
      "await page.fill(".data ++ subClickFillWaitF fuel ((c :: cs).drop 16)
    else if isPre "await page.waitForSelector(".data (c :: cs) then
      "await page.waitForSelector(".data
        ++ subClickFillWaitF fuel ((c :: cs).drop 27)
    else
      c :: subClickFillWaitF fuel cs

/-- Embeds `SelfHealingAgent._apply_fallback_timeout_fix`: double every
literal `timeout: N`, apply the (identity) default-timeout substitution when
no `timeout` substring remains, then append a network-idle wait after every
`await page.goto(...);` statement. -/
def applyFallbackTimeoutFix (code : String) : String :=
  let c1 := String.mk (subTimeoutF code.data.length code.data)
  let c2 :=
    if containsSub "timeout".data c1.data then c1
    else String.mk (subClickFillWaitF c1.data.length c1.data)
  String.mk (subGotoF c2.data.length c2.data)

/-- Scanner for the `re.search` of `_apply_fallback_selector_fix`: the
first single-quoted nonempty token of the error text, without its quotes. -/
def findQuotedF : Nat → List Char → Option (List Char)
  | _, [] => none
  | 0, _ => none
  | fuel + 1, c :: cs =>
    if c == sq then
      let run := cs.takeWhile (fun d => !(d == sq))
      let rest := cs.dropWhile (fun d => !(d == sq))
      if run.isEmpty then findQuotedF fuel cs
      else
        match rest with
        | _ :: _ => some run
        | [] => findQuotedF fuel cs
    else
      findQuotedF fuel cs

/-- Embeds Python `str.replace(pat, repl)`: replace every non-overlapping
occurrence, scanning left to right. -/
def replaceAllF : Nat → List Char → List Char → List Char → List Char
  | _, _, _, [] => []
  | 0, _, _, s => s
  | fuel + 1, pat, repl, c :: cs =>
    if isPre pat (c :: cs) then
      repl ++ replaceAllF fuel pat repl ((c :: cs).drop pat.length)
    else
      c :: replaceAllF fuel pat repl cs

/-- `str.replace` wrapper with fuel set to the input length. -/
def pyReplace (s pat repl : String) : String :=
  String.mk (replaceAllF s.data.length pat.data repl.data s.data)

/-- The wait inserted before click/fill calls by the selector fallback:
an await of waitForLoadState(domcontentloaded), plus newline. -/
def waitDomContent : String :=
  "await page.waitForLoadState(" ++ sqs ++ "domcontentloaded" ++ sqs ++ ");\n"

/-- Scanner for the click/fill substitution of
`_apply_fallback_selector_fix`: each `await page.click(` or
`await page.fill(` has the content-ready wait inserted in front of it. -/
def subClickFillF : Nat → List Char → List Char
  | _, [] => []
  | 0, s => s
  | fuel + 1, c :: cs =>
    if isPre "await page.click(".data (c :: cs) then
      (waitDomContent.data ++ "await page.click(".data)
        ++ subClickFillF fuel ((c :: cs).drop 17)
    else if isPre "await page.fill(".data (c :: cs) then
      (waitDomContent.data ++ "await page.fill(".data)
        ++ subClickFillF fuel ((c :: cs).drop 16)
    else
      c :: subClickFillF fuel cs

/-- Embeds `SelfHealingAgent._apply_fallback_selector_fix`: extract the first
quoted selector of the error text; if it is an id/class form, rewrite it in the
code to a text locator; then inject a content-ready wait before every
click/fill call. -/
def applyFallbackSelectorFix (code error : String) : String :=
  let code2 :=
    match findQuotedF error.data.length error.data with
    | some old =>
      if old.head? == some '#' || old.head? == some '.' then
        let etext :=
          (old.filter (fun c => !(c == '#') && !(c == '.'))).map
            (fun c => if c == '-' then ' ' else c)
        let oldq := String.mk (sq :: old ++ [sq])
        let newq := String.mk (sq :: ("text=".data ++ etext) ++ [sq])
        pyReplace code oldq newq
      else code
    | none => code
  String.mk (subClickFillF code2.data.length code2.data)

/-! ## Healer: category fixes and the top-level `heal`

Each `_fix_*` method returns the model response when the model call
succeeds; otherwise it falls back.  The return type `Except Unit (Option String)`
records either the returned value (a Python str or None) or the fact that the
method raised: the fallback transforms raise (AttributeError / TypeError) when
the input code is None, which the top level of `heal` catches. -/

/-- Embeds `SelfHealingAgent._fix_selector_error` (with its internal
try/except around the model call). -/
def fixSelectorError (code : Option String) (error : String)
    (llm : Option String) : Except Unit (Option String) :=
  match llm with
  | some resp => .ok (some resp)
  | none =>
    match code with
    | some c => .ok (some (applyFallbackSelectorFix c error))
    | none => .error ()

/-- Embeds `SelfHealingAgent._fix_timeout_error`. -/
def fixTimeoutError (code : Option String) (llm : Option String) :
    Except Unit (Option String) :=
  match llm with
  | some resp => .ok (some resp)
  | none =>
    match code with
    | some c => .ok (some (applyFallbackTimeoutFix c))
    | none => .error ()

/-- Embeds `SelfHealingAgent._fix_navigation_error`: a pair of identity
`str.replace` calls, then appending a load-state wait when none is present.
No model call is involved. -/
def fixNavigationError (code : Option String) : Except Unit (Option String) :=
  match code with
  | none => .error ()
  | some c =>
    let c1 := pyReplace c "await page.goto(" "await page.goto("
    let c2 :=
      if containsSub "waitForLoadState".data c1.data then c1
      else
        (pyReplace c1 "await page.goto(" "await page.goto(")
          ++ waitNetworkIdle
    .ok (some c2)

/-- Embeds `SelfHealingAgent._general_fix`: the model response, or the input
code unchanged when the model call fails.  Never raises. -/
def generalFix (code : Option String) (llm : Option String) :
    Except Unit (Option String) :=
  match llm with
  | some resp => .ok (some resp)
  | none => .ok code

/-- Embeds `SelfHealingAgent.heal`.  The body classifies the error and
dispatches to a category fix; the enclosing try/except returns the input code
on any internal exception.  Classifying a None error raises (AttributeError on
`error.lower()`), hence the `none` case.  `pageHtml` only feeds the model
prompt and cannot change the result, so it is passed through unused. -/
def heal (code : Option String) (error : Option String)
    (_pageHtml : Option String) (llm : Option String) : Option String :=
  let body : Except Unit (Option String) :=
    match error with
    | none => .error ()
    | some e =>
      let t := identifyErrorType e
      if t == "selector" then fixSelectorError code e llm
      else if t == "timeout" then fixTimeoutError code llm
      else if t == "navigation" then fixNavigationError code
      else generalFix code llm
  match body with
  | .ok v => v
  | .error _ => code

/-! ## Data model (core/types.py)

`ActionType` and `AssertionType` are string enums in the source; the planner
manipulates their raw string values, so they are embedded as the lists of
admissible values.  Floats and datetimes are Nat ticks. -/

/-- The values of `ActionType` (core/types.py). -/
def actionTypeValues : List String :=
  ["click", "type", "navigate", "wait", "screenshot", "select", "hover",
   "scroll", "assert"]

/-- The values of `AssertionType` (core/types.py). -/
def assertionTypeValues : List String :=
  ["visible", "text", "value", "url", "title", "count", "attribute"]

/-- Embeds `TestRequest`. -/
structure TestRequestM where
  instruction : String
  url : String
  browser : String := "chromium"
  viewport : Option (Nat × Nat) := some (1280, 720)
  timeout : Nat := 30000
  headless : Bool := true
  sessionId : Option String := none
  deriving Repr, DecidableEq

/-- Embeds `TestStep`.  `action` holds the raw `ActionType` value; the
planner guarantees membership in `actionTypeValues`. -/
structure TestStepM where
  action : String
  selector : Option String := none
  value : Option String := none
  description : String
  waitBefore : Option Nat := none
  waitAfter : Option Nat := none
  retry : Option Nat := some 3
  deriving Repr, DecidableEq

/-- Embeds `Assertion`. -/
structure AssertionM where
  type : String
  selector : Option String := none
  expected : Option String := none
  description : String
  operator : String := "equals"
  deriving Repr, DecidableEq

/-- Embeds `TestPlan` (creation timestamp as a Nat tick). -/
structure TestPlanM where
  id : String
  name : String
  description : String
  url : String
  steps : List TestStepM
  assertions : List AssertionM
  testData : Option (List (String × String)) := none
  createdAt : Nat := 0
  tags : List String := []
  deriving Repr, DecidableEq

/-- Embeds `StepResult` (duration/timestamp as Nat ticks). -/
structure StepResultM where
  step : TestStepM
  success : Bool
  error : Option String := none
  screenshot : Option String := none
  duration : Nat := 0
  timestamp : Nat := 0
  deriving Repr, DecidableEq

/-- Embeds `TestResult`.  `started_at`/`completed_at` are optional because the
workflow constructs error results with None timestamps. -/
structure TestResultM where
  id : String
  planId : String
  success : Bool
  executionTime : Nat
  steps : List StepResultM
  passedAssertions : Nat := 0
  failedAssertions : Nat := 0
  screenshots : List String := []
  videoUrl : Option String := none
  error : Option String := none
  browserLogs : Option (List String) := none
  startedAt : Option Nat := none
  completedAt : Option Nat := none
  deriving Repr, DecidableEq

/-! ## Planner: `TestPlanningAgent._convert_to_test_plan` (agents/planner.py)

The LLM emits dictionaries of loosely typed fields; they are embedded as
records of optional strings (`dict.get` with a default).  The alias table is
the `action_mapping` dict, iterated in insertion order; membership uses
Python substring containment. -/

/-- A raw step descriptor from the model (a Python dict). -/
structure StepDescM where
  action : Option String := none
  selector : Option String := none
  value : Option String := none
  description : Option String := none
  waitBefore : Option Nat := none
  waitAfter : Option Nat := none
  deriving Repr, DecidableEq

/-- A raw assertion descriptor from the model. -/
structure AssertDescM where
  type : Option String := none
  selector : Option String := none
  expected : Option String := none
  description : Option String := none
  operator : Option String := none
  deriving Repr, DecidableEq

/-- The structured model output `TestPlanOutput`. -/
structure TestPlanOutputM where
  name : String
  description : String
  steps : List StepDescM
  assertions : List AssertDescM
  testData : Option (List (String × String)) := none
  tags : List String := []
  deriving Repr, DecidableEq

/-- The `action_mapping` alias table, in insertion order. -/
def actionMapping : List (String × String) :=
  [("navigate to", "navigate"),
   ("navigate to the url", "navigate"),
   ("go to", "navigate"),
   ("fill", "type"),
   ("enter", "type"),
   ("input", "type"),
   ("press", "click"),
   ("tap", "click"),
   ("wait for", "wait"),
   ("take screenshot", "screenshot"),
   ("capture", "screenshot"),
   ("choose", "select"),
   ("pick", "select"),
   ("scroll to", "scroll")]

/-- Normalisation of a step action token, as in `_convert_to_test_plan`:
lower the token, rewrite it by the first alias table entry contained in it,
then default anything outside the `ActionType` vocabulary to `click`. -/
def normalizeAction (a : String) : String :=
  let al := lowerStr a
  let aliased :=
    (actionMapping.find? (fun p => containsSub p.1.data al.data)).map (·.2)
  let action := aliased.getD al
  if actionTypeValues.contains action then action else "click"

/-- Conversion of one step descriptor into a `TestStep`. -/
def convertStep (d : StepDescM) : TestStepM :=
  { action := normalizeAction (d.action.getD "click"),
    selector := d.selector,
    value := d.value,
    description := d.description.getD "",
    waitBefore := d.waitBefore,
    waitAfter := d.waitAfter }

/-- Normalisation of an assertion type token: anything outside the
`AssertionType` vocabulary defaults to `visible` (no lowering in the source). -/
def normalizeAssertType (t : Option String) : String :=
  let ty := t.getD "visible"
  if assertionTypeValues.contains ty then ty else "visible"

/-- Conversion of one assertion descriptor into an `Assertion`. -/
def convertAssertion (d : AssertDescM) : AssertionM :=
  { type := normalizeAssertType d.type,
    selector := d.selector,
    expected := d.expected,
    description := d.description.getD "",
    operator := d.operator.getD "equals" }

/-- Embeds `TestPlanningAgent._convert_to_test_plan` (`now` stands for
`datetime.now().timestamp()`). -/
def convertToTestPlan (output : TestPlanOutputM) (request : TestRequestM)
    (now : Nat) : TestPlanM :=
  { id := "test_" ++ Nat.repr now,
    name := output.name,
    description := output.description,
    url := request.url,
    steps := output.steps.map convertStep,
    assertions := output.assertions.map convertAssertion,
    testData := output.testData,
    createdAt := now,
    tags := output.tags }

/-! ## Validator: `ValidationAgent.validate` (agents/validator.py)

`_analyze_result` invokes the model but discards the answer (the `analysis`
local is never used) and degrades internally on failure, so the oracle cannot
influence the result.  `_categorize_error` is ordered keyword matching. -/

/-- The `error_keywords` table of `_categorize_error`, in insertion order. -/
def errorKeywords : List (String × String) :=
  [("timeout", "Timeout Error"),
   ("selector", "Selector Error"),
   ("navigation", "Navigation Error"),
   ("network", "Network Error"),
   ("assertion", "Assertion Failed"),
   ("element not found", "Element Not Found"),
   ("click", "Interaction Error"),
   ("fill", "Input Error")]

/-- Embeds `ValidationAgent._categorize_error`. -/
def categorizeError (error : String) : String :=
  let el := (lowerStr error).data
  ((errorKeywords.find? (fun p => containsSub p.1.data el)).map (·.2)).getD
    "Test Execution Error"

/-- Embeds `ValidationAgent.validate`.  In-place mutation becomes a function
returning the updated record; the analysis oracle is accepted and ignored,
as in the source.  The body cannot raise, so the enclosing try/except that
would return the unmodified result is dead. -/
def validateResult (result : TestResultM) (_analysisLlm : Option String) :
    TestResultM :=
  let r1 :=
    if strTruthy result.error && !result.success then
      { result with
        error :=
          some (categorizeError (result.error.getD "") ++ ": "
            ++ result.error.getD "") }
    else result
  let passed := (r1.steps.filter (·.success)).length
  let failed := r1.steps.length - passed
  { r1 with passedAssertions := passed, failedAssertions := failed }

/-! ## Page analyzer: `getSelector` (agents/utils/page_analyzer.py)

The JavaScript `getSelector` inside `page_script`, embedded over a record of
the DOM properties it reads.  JavaScript truthiness on strings: absent
(undefined/null) and empty strings are falsy. -/

/-- The DOM properties `getSelector` reads from an element.  `datasetTestid`
is `element.dataset.testid` (absent when there is no `data-testid`
attribute); `id` and `className` are the reflected string properties (empty
when the attribute is absent); `textContent` is null or a string; `tagName`
is uppercase. -/
structure ElementM where
  datasetTestid : Option String := none
  id : String := ""
  className : String := ""
  textContent : Option String := none
  tagName : String
  deriving Repr, DecidableEq

/-- JavaScript `String.prototype.split(sep)` for a single-character
separator. -/
def splitChar (sep : Char) : List Char → List (List Char)
  | [] => [[]]
  | c :: cs =>
    match splitChar sep cs with
    | [] => [[]]
    | r :: rs => if c == sep then [] :: r :: rs else (c :: r) :: rs

/-- The class token list: className split on single spaces, empty tokens
filtered out, as in the extractor script. -/
def classTokens (className : String) : List (List Char) :=
  (splitChar ' ' className.data).filter (fun t => !t.isEmpty)

/-- JavaScript `String.prototype.trim` (ASCII whitespace). -/
def jsTrim (s : String) : String :=
  String.mk (((s.data.dropWhile isPySpace).reverse.dropWhile isPySpace).reverse)

/-- The class tokens joined with dots (classes.join of the source). -/
def joinDot : List (List Char) → List Char
  | [] => []
  | [t] => t
  | t :: ts => t ++ '.' :: joinDot ts

/-- Embeds the JavaScript `getSelector` of `page_script`: priority
data-testid, then id, then class list, then (buttons/links only) text
truncated to 30 characters, then the lowered tag name. -/
def getSelector (e : ElementM) : String :=
  if strTruthy e.datasetTestid then
    "[data-testid=\"" ++ e.datasetTestid.getD "" ++ "\"]"
  else if !e.id.isEmpty then
    "#" ++ e.id
  else if !(classTokens e.className).isEmpty then
    String.mk ('.' :: joinDot (classTokens e.className))
  else if e.textContent.isSome && !(jsTrim (e.textContent.getD "")).isEmpty then
    let text := String.mk ((jsTrim (e.textContent.getD "")).data.take 30)
    if e.tagName == "BUTTON" then
      "button:has-text(\"" ++ text ++ "\")"
    else if e.tagName == "A" then
      "a:has-text(\"" ++ text ++ "\")"
    else
      lowerStr e.tagName
  else
    lowerStr e.tagName

/-! ## Executor: `TestExecutionAgent.execute` (agents/executor.py)

Remote-session and browser interactions are oracles.  The inner try/except
around the `exec` of the test code turns an execution exception into
`success=False` with a best-effort failure screenshot; the outer try/except
turns any other exception into an error `TestResult`.  The local
`step_results` list is created empty and no code path appends to it. -/

/-- Oracles for one `execute` call: each fallible await is an `Except`
(`error` = the call raised with that message). -/
structure ExecEnvM where
  createSession : Except String String
  connect : Except String Unit
  runCode : Except String Unit
  screenshotOnFailure : Bool
  failShot : Except String String
  closeCtx : Except String Unit
  getScreenshots : Except String (List String)
  getRecording : Except String (Option String)

/-- Embeds `TestExecutionAgent.execute`.  `startT`/`endT` stand for the
`time.time()` readings; the test code string only feeds `exec`, whose outcome
is the `runCode` oracle. -/
def executeTest (_testCode : Option String) (request : TestRequestM)
    (sessionId : Option String) (env : ExecEnvM) (startT endT : Nat) :
    TestResultM :=
  let stepResults : List StepResultM := []
  let errRes : String → List String → TestResultM := fun e shots =>
    { id := "result_" ++ Nat.repr endT,
      planId := request.sessionId.getD "unknown",
      success := false,
      executionTime := endT - startT,
      steps := stepResults,
      screenshots := shots,
      error := some e,
      startedAt := some startT,
      completedAt := some endT }
  match (if sessionId.isNone then env.createSession
         else .ok (sessionId.getD "")) with
  | .error e => errRes e []
  | .ok _ =>
    match env.connect with
    | .error e => errRes e []
    | .ok _ =>
      let inner : Bool × Option String × List String :=
        match env.runCode with
        | .ok _ => (true, none, [])
        | .error e =>
          (false, some e,
            if env.screenshotOnFailure then
              match env.failShot with
              | .ok p => [p]
              | .error _ => []
            else [])
      match env.closeCtx with
      | .error e => errRes e inner.2.2
      | .ok _ =>
        match env.getScreenshots with
        | .error e => errRes e inner.2.2
        | .ok bb =>
          match env.getRecording with
          | .error e => errRes e (inner.2.2 ++ bb)
          | .ok vid =>
            { id := "result_" ++ Nat.repr endT,
              planId := request.sessionId.getD "unknown",
              success := inner.1,
              executionTime := endT - startT,
              steps := stepResults,
              screenshots := inner.2.2 ++ bb,
              videoUrl := vid,
              error := inner.2.1,
              startedAt := some startT,
              completedAt := some endT }

/-! ## Workflow engine (orchestrator/test_workflow.py)

The LangGraph graph: nodes plan, generate, execute, validate, heal; an
unconditional edge plan→generate and generate→execute; conditional routing
after execute and heal through `_route_after_execution` /
`_route_after_healing`, which return the strings consumed by
`add_conditional_edges`.  Node handlers are embedded as partial-update
functions on the state; agent calls inside the handlers are oracles. -/

/-- The graph nodes, plus the `END` sentinel as `terminal`. -/
inductive Node where
  | plan
  | generate
  | execute
  | validate
  | heal
  | terminal
  deriving Repr, DecidableEq

/-- Embeds `WorkflowState` (the TypedDict). -/
structure WStateM where
  request : TestRequestM
  plan : Option TestPlanM := none
  generatedCode : Option String := none
  result : Option TestResultM := none
  errors : List String := []
  currentStep : String := "initialization"
  sessionId : Option String := none
  retryCount : Nat := 0
  pageHtml : Option String := none
  deriving Repr, DecidableEq

/-- The initial state built by `TestAutomationWorkflow.run`. -/
def initState (request : TestRequestM) : WStateM :=
  { request := request, sessionId := request.sessionId }

/-- Oracles for a workflow run.  `planR`/`genR` are the planner and generator
calls (`error` = the call raised); `execR` is the executor result for the
attempt executed at a given retry count (`TestExecutionAgent.execute` itself
never raises — its body is wrapped in a top-level try/except returning an
error result — so the `error` branch only models the written except clause of
`_execute_node`); `healLlm` feeds `SelfHealingAgent.heal`, which is total;
`valLlm` feeds the validator analysis call, which is discarded. -/
structure EnvM where
  planR : Except String TestPlanM
  genR : Option TestPlanM → Except String String
  execR : Nat → Except String TestResultM
  healLlm : Nat → Option String
  valLlm : Option String

/-- The error result `_execute_node` synthesises in its except clause. -/
def execErrorResult (s : WStateM) (e : String) : TestResultM :=
  { id := "error_" ++ s.sessionId.getD "unknown",
    planId := ((s.plan.map (·.id)).getD "unknown"),
    success := false,
    executionTime := 0,
    steps := [],
    error := some e }

/-- Embeds `_route_after_execution`: validate on success; end when the retry
budget is exhausted; heal only when a failed result carries a truthy error. -/
def routeAfterExecution (s : WStateM) : String :=
  match s.result with
  | none => "end"
  | some result =>
    if result.success then "validate"
    else if 3 ≤ s.retryCount then "end"
    else if strTruthy result.error && !result.success then "heal"
    else "end"

/-- Embeds `_route_after_healing`. -/
def routeAfterHealing (s : WStateM) : String :=
  if 3 ≤ s.retryCount then "end" else "execute"

/-- One engine step: run the handler of the current node, merge its partial
update, then follow the graph edge (unconditional edges after plan/generate,
the conditional-edge mappings after execute/heal, END after validate).
The except branches of `_validate_node` and `_heal_node` fire only when no
result is in the state (attribute access on None); `validateResult` and
`heal` themselves are total. -/
def stepW (env : EnvM) : Node × WStateM → Node × WStateM
  | (Node.plan, s) =>
    let s2 :=
      match env.planR with
      | .ok p => { s with plan := some p, currentStep := "planning_complete" }
      | .error e =>
        { s with errors := s.errors ++ [e], currentStep := "planning_failed" }
    (Node.generate, s2)
  | (Node.generate, s) =>
    let s2 :=
      match env.genR s.plan with
      | .ok c =>
        { s with generatedCode := some c,
                 currentStep := "generation_complete" }
      | .error e =>
        { s with errors := s.errors ++ [e],
                 currentStep := "generation_failed" }
    (Node.execute, s2)
  | (Node.execute, s) =>
    let s2 :=
      match env.execR s.retryCount with
      | .ok r =>
        { s with result := some r, currentStep := "execution_complete" }
      | .error e =>
        { s with result := some (execErrorResult s e),
                 errors := s.errors ++ [e],
                 currentStep := "execution_failed" }
    let nxt := routeAfterExecution s2
    (if nxt == "validate" then Node.validate
     else if nxt == "heal" then Node.heal
     else Node.terminal, s2)
  | (Node.validate, s) =>
    let s2 :=
      match s.result with
      | some r =>
        { s with result := some (validateResult r env.valLlm),
                 currentStep := "validation_complete" }
      | none =>
        { s with errors := s.errors ++ ["validation raised"],
                 currentStep := "validation_failed" }
    (Node.terminal, s2)
  | (Node.heal, s) =>
    let s2 :=
      match s.result with
      | some r =>
        { s with
          generatedCode :=
            heal s.generatedCode r.error s.pageHtml (env.healLlm s.retryCount),
          retryCount := s.retryCount + 1,
          currentStep := "healing_complete" }
      | none =>
        { s with errors := s.errors ++ ["healing raised"],
                 currentStep := "healing_failed" }
    let nxt := routeAfterHealing s2
    (if nxt == "execute" then Node.execute else Node.terminal, s2)
  | (Node.terminal, s) => (Node.terminal, s)

/-- Iterate the engine `n` steps. -/
def runW (env : EnvM) : Nat → Node × WStateM → Node × WStateM
  | 0, p => p
  | n + 1, p => runW env n (stepW env p)

/-- The nodes whose handlers run during the first `n` steps (the terminal
sentinel executes no handler). -/
def runNodes (env : EnvM) : Nat → Node × WStateM → List Node
  | 0, _ => []
  | n + 1, (nd, s) =>
    if nd == Node.terminal then []
    else nd :: runNodes env n (stepW env (nd, s))

/-- The states reachable by the engine from the initial state of a request. -/
inductive ReachableW (env : EnvM) (request : TestRequestM) :
    Node × WStateM → Prop where
  | init : ReachableW env request (Node.plan, initState request)
  | step : ∀ {p}, ReachableW env request p →
      ReachableW env request (stepW env p)

/-! ## Concrete fixtures used by counterexamples and scenario runs -/

/-- The error text of the spec scenario: Timeout 30000ms exceeded waiting
for selector quote-hash-submit-quote. -/
def timeoutSelectorError : String :=
  "Timeout 30000ms exceeded waiting for selector " ++ sqs ++ "#submit" ++ sqs

/-- Representative generated code with two literal timeouts and two
navigation statements. -/
def codeC4 : String :=
  "await page.goto(" ++ sqs ++ "https://example.com" ++ sqs ++ ");\n"
    ++ "await page.click(" ++ sqs ++ "#submit" ++ sqs ++ ", timeout: 30000);\n"
    ++ "await page.goto(" ++ sqs ++ "https://example.com/next" ++ sqs ++ ");\n"
    ++ "await page.waitForSelector(" ++ sqs ++ "#done" ++ sqs
    ++ ", timeout: 5000);"

/-- `codeC4` after the timeout fallback: every timeout doubled, a
network-idle wait appended after every `goto` statement. -/
def codeC4Fixed : String :=
  "await page.goto(" ++ sqs ++ "https://example.com" ++ sqs ++ ");"
    ++ waitNetworkIdle ++ "\n"
    ++ "await page.click(" ++ sqs ++ "#submit" ++ sqs ++ ", timeout: 60000);\n"
    ++ "await page.goto(" ++ sqs ++ "https://example.com/next" ++ sqs ++ ");"
    ++ waitNetworkIdle ++ "\n"
    ++ "await page.waitForSelector(" ++ sqs ++ "#done" ++ sqs
    ++ ", timeout: 10000);"

/-! ## Claim C4 -/

set_option maxRecDepth 20000 in
/-- Claim C4, counterexample: on the scenario error text the classifier
returns `selector`, not `timeout` — the text contains the substring
`selector`, and the selector/element check precedes the timeout check in
`_identify_error_type`. -/
theorem c4_classification_counterexample :
    identifyErrorType timeoutSelectorError = "selector" ∧
    ¬ (identifyErrorType timeoutSelectorError = "timeout") := by
  decide

set_option maxRecDepth 100000 in
/-- Claim C4, amended: for the scenario error text the classifier returns
`selector` (the selector/element check fires first); the deterministic
timeout fallback transform itself does replace each literal `timeout: N`
with `timeout: 2*N` and append a wait-for-network-idle call after each
`await page.goto(...);` statement, exhibited on code carrying two timeout
literals and two navigation calls. -/
theorem c4_amended_selector_classification_and_timeout_transform :
    identifyErrorType timeoutSelectorError = "selector" ∧
    applyFallbackTimeoutFix codeC4 = codeC4Fixed := by
  decide

/-! ## Claim C5 -/

/-- Claim C5: the error classifier is a deterministic total function of the
lowered error text: `selector` iff the text contains `selector` or
`element`; otherwise `timeout` iff it contains `timeout`; otherwise
`navigation` iff it contains `navigation` or `goto`; otherwise `general`.
In particular a text containing `timeout` classifies as `timeout` exactly
when `selector` and `element` are absent. -/
theorem c5_classifier_characterization (e : String) :
    (identifyErrorType e = "selector" ↔
      (containsSub "selector".data (lowerStr e).data = true ∨
       containsSub "element".data (lowerStr e).data = true)) ∧
    (identifyErrorType e = "timeout" ↔
      (containsSub "selector".data (lowerStr e).data = false ∧
       containsSub "element".data (lowerStr e).data = false ∧
       containsSub "timeout".data (lowerStr e).data = true)) ∧
    (identifyErrorType e = "navigation" ↔
      (containsSub "selector".data (lowerStr e).data = false ∧
       containsSub "element".data (lowerStr e).data = false ∧
       containsSub "timeout".data (lowerStr e).data = false ∧
       (containsSub "navigation".data (lowerStr e).data = true ∨
        containsSub "goto".data (lowerStr e).data = true))) ∧
    (identifyErrorType e = "general" ↔
      (containsSub "selector".data (lowerStr e).data = false ∧
       containsSub "element".data (lowerStr e).data = false ∧
       containsSub "timeout".data (lowerStr e).data = false ∧
       containsSub "navigation".data (lowerStr e).data = false ∧
       containsSub "goto".data (lowerStr e).data = false)) ∧
    (containsSub "timeout".data (lowerStr e).data = true →
      (identifyErrorType e = "timeout" ↔
        (containsSub "selector".data (lowerStr e).data = false ∧
         containsSub "element".data (lowerStr e).data = false))) := by
  unfold identifyErrorType
  cases hs : containsSub "selector".data (lowerStr e).data <;>
    cases he : containsSub "element".data (lowerStr e).data <;>
      cases ht : containsSub "timeout".data (lowerStr e).data <;>
        cases hn : containsSub "navigation".data (lowerStr e).data <;>
          cases hg : containsSub "goto".data (lowerStr e).data <;>
            simp_all

/-- Witness for C5 at a concrete error text containing `timeout` but neither
`selector` nor `element`. -/
theorem c5_classifier_characterization_witness :
    identifyErrorType "page Timeout after navigation" = "timeout" ↔
      (containsSub "selector".data (lowerStr "page Timeout after navigation").data = false ∧
       containsSub "element".data (lowerStr "page Timeout after navigation").data = false) :=
  (c5_classifier_characterization "page Timeout after navigation").2.2.2.2
    (by decide)

/-! ## Claim C6 -/

/-- Claim C6: `heal` never raises (it is a total function here because every
exception of the source body is caught by the enclosing try/except, which
returns the input code); when classification fails inside (a None error
raises in `_identify_error_type`) the input code comes back unchanged, and
when the classification is `general` and the model-assisted fix fails the
input code comes back unchanged. -/
theorem c6_heal_total_failure_returns_input :
    (∀ (code : Option String) (html llm : Option String),
      heal code none html llm = code) ∧
    (∀ (code error : String) (html : Option String),
      identifyErrorType error = "general" →
      heal (some code) (some error) html none = some code) := by
  constructor
  · intro code html llm
    rfl
  · intro code error html h
    simp only [heal, h]
    rfl

/-- Witness for C6 at a concrete unclassifiable error text. -/
theorem c6_heal_total_failure_returns_input_witness :
    heal (some "await page.click(b);") (some "mysterious boom") none none =
      some "await page.click(b);" :=
  c6_heal_total_failure_returns_input.2 "await page.click(b);"
    "mysterious boom" none (by decide)

/-! ## Claim C7 -/

/-- No key of the alias table occurs in the lowered action token. -/
def aliasFree (a : String) : Bool :=
  actionMapping.all (fun p => !containsSub p.1.data (lowerStr a).data)

/-- Claim C7: plan conversion is total — it produces exactly one `TestStep`
per step descriptor and one `Assertion` per assertion descriptor, never
aborting; alias tokens are normalised to their canonical action (`go to` →
navigate, `fill`/`enter`/`input` → type, `press`/`tap` → click); an action
token matching no alias and outside the vocabulary becomes `click`; an
assertion type outside the vocabulary becomes `visible`. -/
theorem c7_plan_conversion_never_aborts :
    (∀ (output : TestPlanOutputM) (request : TestRequestM) (now : Nat),
      (convertToTestPlan output request now).steps.length =
        output.steps.length ∧
      (convertToTestPlan output request now).assertions.length =
        output.assertions.length) ∧
    normalizeAction "go to" = "navigate" ∧
    normalizeAction "fill" = "type" ∧
    normalizeAction "enter" = "type" ∧
    normalizeAction "input" = "type" ∧
    normalizeAction "press" = "click" ∧
    normalizeAction "tap" = "click" ∧
    (∀ a : String, aliasFree a = true → lowerStr a ∉ actionTypeValues →
      normalizeAction a = "click") ∧
    (∀ t : String, t ∉ assertionTypeValues →
      normalizeAssertType (some t) = "visible") ∧
    (∀ d : StepDescM,
      (convertStep d).action = normalizeAction (d.action.getD "click")) ∧
    (∀ d : AssertDescM,
      (convertAssertion d).type = normalizeAssertType d.type) := by
  refine ⟨?_, by decide, by decide, by decide, by decide, by decide, by decide,
    ?_, ?_, ?_, ?_⟩
  · intro output request now
    simp [convertToTestPlan]
  · intro a hfree hvocab
    have hnone :
        actionMapping.find?
          (fun p => containsSub p.1.data (lowerStr a).data) = none := by
      rw [List.find?_eq_none]
      intro p hp
      have := (List.all_eq_true.mp hfree) p hp
      simpa using this
    simp [normalizeAction, hnone, hvocab]
  · intro t hvocab
    simp [normalizeAssertType, hvocab]
  · intro d
    rfl
  · intro d
    rfl

/-- Witness for C7 at a concrete unrecognised action and assertion token. -/
theorem c7_plan_conversion_never_aborts_witness :
    normalizeAction "explode" = "click" ∧
    normalizeAssertType (some "sparkles") = "visible" ∧
    (convertToTestPlan
      { name := "t", description := "d",
        steps := [{ action := some "explode" }], assertions := [] }
      { instruction := "i", url := "https://example.com" } 0).steps.length = 1 :=
  ⟨c7_plan_conversion_never_aborts.2.2.2.2.2.2.2.1 "explode" (by decide)
      (by decide),
   c7_plan_conversion_never_aborts.2.2.2.2.2.2.2.2.1 "sparkles" (by decide),
   (c7_plan_conversion_never_aborts.1
      { name := "t", description := "d",
        steps := [{ action := some "explode" }], assertions := [] }
      { instruction := "i", url := "https://example.com" } 0).1⟩

/-! ## Claim C8 -/

/-- Claim C8: the computed selector follows the strict priority of
`getSelector` — a truthy data-testid wins over everything (in particular
over a non-empty id); otherwise a non-empty id gives `#id`; otherwise a
non-empty class token list gives the dot-joined class selector; otherwise,
for BUTTON/A elements with non-blank text, a text locator with the trimmed
text truncated to 30 characters; otherwise the lowered tag name. -/
theorem c8_selector_priority (e : ElementM) :
    (strTruthy e.datasetTestid = true →
      getSelector e = "[data-testid=\"" ++ e.datasetTestid.getD "" ++ "\"]") ∧
    (strTruthy e.datasetTestid = false → e.id.isEmpty = false →
      getSelector e = "#" ++ e.id) ∧
    (strTruthy e.datasetTestid = false → e.id.isEmpty = true →
      (classTokens e.className).isEmpty = false →
      getSelector e = String.mk ('.' :: joinDot (classTokens e.className))) ∧
    (strTruthy e.datasetTestid = false → e.id.isEmpty = true →
      (classTokens e.className).isEmpty = true →
      e.textContent.isSome = true →
      (jsTrim (e.textContent.getD "")).isEmpty = false →
      e.tagName = "BUTTON" →
      getSelector e = "button:has-text(\""
        ++ String.mk ((jsTrim (e.textContent.getD "")).data.take 30)
        ++ "\")") ∧
    (strTruthy e.datasetTestid = false → e.id.isEmpty = true →
      (classTokens e.className).isEmpty = true →
      e.textContent.isSome = true →
      (jsTrim (e.textContent.getD "")).isEmpty = false →
      e.tagName = "A" →
      getSelector e = "a:has-text(\""
        ++ String.mk ((jsTrim (e.textContent.getD "")).data.take 30)
        ++ "\")") ∧
    (strTruthy e.datasetTestid = false → e.id.isEmpty = true →
      (classTokens e.className).isEmpty = true →
      e.textContent.isSome = true →
      (jsTrim (e.textContent.getD "")).isEmpty = false →
      ¬ (e.tagName = "BUTTON") → ¬ (e.tagName = "A") →
      getSelector e = lowerStr e.tagName) ∧
    (strTruthy e.datasetTestid = false → e.id.isEmpty = true →
      (classTokens e.className).isEmpty = true →
      (e.textContent.isSome = false ∨
        (jsTrim (e.textContent.getD "")).isEmpty = true) →
      getSelector e = lowerStr e.tagName) := by
  refine ⟨?_, ?_, ?_, ?_, ?_, ?_, ?_⟩
  · intro h1
    simp [getSelector, h1]
  · intro h1 h2
    simp [getSelector, h1, h2]
  · intro h1 h2 h3
    simp [getSelector, h1, h2, h3]
  · intro h1 h2 h3 h4 h5 h6
    simp [getSelector, h1, h2, h3, h4, h5, h6]
  · intro h1 h2 h3 h4 h5 h6
    simp [getSelector, h1, h2, h3, h4, h5, h6]
  · intro h1 h2 h3 h4 h5 h6 h7
    simp [getSelector, h1, h2, h3, h4, h5, h6, h7]
  · intro h1 h2 h3 h4
    rcases h4 with h4 | h4 <;> simp [getSelector, h1, h2, h3, h4]

/-- Witness for C8: an element carrying both a data-testid and an id takes
the test-id selector; the same element without the testid takes the id. -/
theorem c8_selector_priority_witness :
    getSelector { datasetTestid := some "submit", id := "other-id",
                  tagName := "BUTTON" } = "[data-testid=\"submit\"]" ∧
    getSelector { id := "other-id", tagName := "BUTTON" } = "#other-id" :=
  ⟨(c8_selector_priority
      { datasetTestid := some "submit", id := "other-id",
        tagName := "BUTTON" }).1 (by decide),
   (c8_selector_priority { id := "other-id", tagName := "BUTTON" }).2.1
      (by decide) (by decide)⟩

/-! ## Claim C9 -/

/-- Claim C9: `validate` only rewrites `error` (prefixing the derived
category when the result failed with a truthy error) and the
passed/failed assertion counters; every other field of the result comes
back unchanged. -/
theorem c9_validate_frame (r : TestResultM) (llm : Option String) :
    (validateResult r llm).id = r.id ∧
    (validateResult r llm).planId = r.planId ∧
    (validateResult r llm).success = r.success ∧
    (validateResult r llm).executionTime = r.executionTime ∧
    (validateResult r llm).steps = r.steps ∧
    (validateResult r llm).screenshots = r.screenshots ∧
    (validateResult r llm).videoUrl = r.videoUrl ∧
    (validateResult r llm).browserLogs = r.browserLogs ∧
    (validateResult r llm).startedAt = r.startedAt ∧
    (validateResult r llm).completedAt = r.completedAt ∧
    (validateResult r llm).error =
      (if strTruthy r.error && !r.success then
        some (categorizeError (r.error.getD "") ++ ": " ++ r.error.getD "")
       else r.error) ∧
    (validateResult r llm).passedAssertions =
      (r.steps.filter (·.success)).length ∧
    (validateResult r llm).failedAssertions =
      r.steps.length - (r.steps.filter (·.success)).length := by
  by_cases h : (strTruthy r.error && !r.success) = true <;>
    simp [validateResult, h]

/-! ## Claim C10 -/

/-- Claim C10: every `TestResult` produced by `execute` — success path,
caught execution failure, or top-level exception path — carries an empty
step list: the local `step_results` list is created empty and no code path
appends to it. -/
theorem c10_execute_steps_always_empty (code : Option String)
    (request : TestRequestM) (sessionId : Option String) (env : ExecEnvM)
    (startT endT : Nat) :
    (executeTest code request sessionId env startT endT).steps = [] := by
  simp only [executeTest]
  repeat' split
  all_goals rfl

/-! ## Workflow fixtures -/

/-- A concrete request. -/
def reqC1 : TestRequestM :=
  { instruction := "Click the submit button", url := "https://example.com" }

/-- A concrete plan as the planner would return it. -/
def planC : TestPlanM :=
  { id := "plan1", name := "submit test", description := "clicks submit",
    url := "https://example.com", steps := [], assertions := [] }

/-- A successful execution result. -/
def okResult : TestResultM :=
  { id := "r-ok", planId := "plan1", success := true, executionTime := 1,
    steps := [] }

/-- A failing execution result with a truthy error. -/
def failedResult : TestResultM :=
  { id := "r-fail", planId := "plan1", success := false, executionTime := 1,
    steps := [], error := some "mysterious boom" }

/-- A failing execution result with no error text. -/
def failedNoErrorResult : TestResultM :=
  { id := "r-fail2", planId := "plan1", success := false, executionTime := 1,
    steps := [] }

/-- An environment in which the planner call raises and everything else
succeeds. -/
def envPlanFail : EnvM :=
  { planR := .error "planner boom",
    genR := fun _ => .ok "await page.click(b);",
    execR := fun _ => .ok okResult,
    healLlm := fun _ => none,
    valLlm := none }

/-- An environment in which every execution attempt fails with a truthy
error, and the healing model calls fail (the deterministic fallbacks run). -/
def envExecFail : EnvM :=
  { planR := .ok planC,
    genR := fun _ => .ok "await page.click(b);",
    execR := fun _ => .ok failedResult,
    healLlm := fun _ => none,
    valLlm := none }

/-! ## Claim C1 -/

set_option maxRecDepth 20000 in
/-- Claim C1, counterexample: a run in which the planner call raises still
invokes the generate node handler — the graph has an unconditional
plan→generate edge and `_plan_node` swallows the exception, so the failure
is not propagated and the run does not halt before generate. -/
theorem c1_plan_failure_still_reaches_generate :
    envPlanFail.planR = Except.error "planner boom" ∧
    Node.generate ∈ runNodes envPlanFail 10 (Node.plan, initState reqC1) :=
  ⟨rfl, by decide⟩

/-- Claim C1, amended: when the planner raises, the plan node catches the
exception — the message is appended to `errors`, `current_step` becomes
`planning_failed`, no plan is recorded — and the engine proceeds
unconditionally to the generate node, whose handler runs next; nothing is
propagated to the caller from the plan node. -/
theorem c1_amended_plan_failure_recorded_and_generate_runs
    (env : EnvM) (req : TestRequestM) (e : String)
    (h : env.planR = Except.error e) :
    (stepW env (Node.plan, initState req)).2.errors = [e] ∧
    (stepW env (Node.plan, initState req)).2.currentStep =
      "planning_failed" ∧
    (stepW env (Node.plan, initState req)).2.plan = none ∧
    (stepW env (Node.plan, initState req)).1 = Node.generate ∧
    runNodes env 2 (Node.plan, initState req) =
      [Node.plan, Node.generate] := by
  refine ⟨?_, ?_, ?_, ?_, ?_⟩ <;>
    simp [stepW, runNodes, initState, h]

/-- Witness for the amended C1 at the concrete failing environment. -/
theorem c1_amended_plan_failure_witness :
    runNodes envPlanFail 2 (Node.plan, initState reqC1) =
      [Node.plan, Node.generate] :=
  (c1_amended_plan_failure_recorded_and_generate_runs envPlanFail reqC1
    "planner boom" rfl).2.2.2.2

/-! ## Claim C3 -/

/-- A state after an execution failure carrying no error text. -/
def stExecFailNoError : WStateM :=
  { initState reqC1 with result := some failedNoErrorResult }

/-- A state after an execution failure carrying a truthy error text. -/
def stExecFailWithError : WStateM :=
  { initState reqC1 with result := some failedResult }

/-- Claim C3, counterexample: a state with a present result, failed
execution and `retry_count < 3` is routed to `end`, not `heal`, because the
router additionally requires a truthy `result.error`. -/
theorem c3_route_counterexample :
    stExecFailNoError.result.isSome = true ∧
    stExecFailNoError.result.map (·.success) = some false ∧
    stExecFailNoError.retryCount < 3 ∧
    routeAfterExecution stExecFailNoError = "end" ∧
    ¬ (routeAfterExecution stExecFailNoError = "heal") := by
  decide

set_option linter.unnecessarySeqFocus false in
/-- Claim C3, amended: for a state whose result is present and failed, the
post-execute router selects `heal` exactly when `retry_count < 3` and the
result carries a truthy (non-None, non-empty) error text. -/
theorem c3_amended_route_to_heal_iff (s : WStateM) (r : TestResultM)
    (hr : s.result = some r) (hs : r.success = false) :
    routeAfterExecution s = "heal" ↔
      (s.retryCount < 3 ∧ strTruthy r.error = true) := by
  by_cases h3 : 3 ≤ s.retryCount <;>
    by_cases he : strTruthy r.error = true <;>
      simp [routeAfterExecution, hr, hs, h3, he] <;>
        try omega

/-- Witness for the amended C3: with a truthy error and retry budget left
the route is `heal`. -/
theorem c3_amended_route_to_heal_iff_witness :
    routeAfterExecution stExecFailWithError = "heal" :=
  (c3_amended_route_to_heal_iff stExecFailWithError failedResult rfl
    rfl).mpr ⟨by decide, by decide⟩

/-! ## Claim C2 -/

/-- The post-execute router only selects `heal` with retry budget left. -/
lemma routeAfterExecution_heal_retry_lt (s : WStateM)
    (h : routeAfterExecution s = "heal") : s.retryCount < 3 := by
  unfold routeAfterExecution at h
  split at h
  · exact absurd h (by decide)
  · split_ifs at h with h1 h2 h3
    · exact absurd h (by decide)
    · exact absurd h (by decide)
    · omega
    · exact absurd h (by decide)

/-- The engine step never decreases the retry counter. -/
lemma stepW_retry_mono (env : EnvM) (p : Node × WStateM) :
    p.2.retryCount ≤ (stepW env p).2.retryCount := by
  obtain ⟨nd, s⟩ := p
  cases nd <;> simp only [stepW]
  · cases env.planR <;> simp
  · cases env.genR s.plan <;> simp
  · cases env.execR s.retryCount <;> simp
  · cases hr : s.result <;> simp
  · cases hr : s.result <;> simp
  · simp

/-- The engine never moves into `heal` once the retry counter has reached
the ceiling. -/
lemma execRouteNode_ne_heal (s2 : WStateM) (h : ¬ (s2.retryCount < 3)) :
    (if routeAfterExecution s2 == "validate" then Node.validate
     else if routeAfterExecution s2 == "heal" then Node.heal
     else Node.terminal) ≠ Node.heal := by
  by_cases hv : routeAfterExecution s2 == "validate"
  · simp [hv]
  · by_cases hh : routeAfterExecution s2 == "heal"
    · exact absurd (routeAfterExecution_heal_retry_lt s2 (by simpa using hh)) h
    · simp [hv, hh]

/-- If the post-execute routing lands on the heal node, the router chose
the `heal` label. -/
lemma execRouteNode_heal_imp (s2 : WStateM)
    (h : (if routeAfterExecution s2 == "validate" then Node.validate
          else if routeAfterExecution s2 == "heal" then Node.heal
          else Node.terminal) = Node.heal) :
    routeAfterExecution s2 = "heal" := by
  by_cases hv : routeAfterExecution s2 == "validate"
  · rw [if_pos hv] at h
    exact absurd h (by decide)
  · by_cases hh : routeAfterExecution s2 == "heal"
    · simpa using hh
    · rw [if_neg hv, if_neg hh] at h
      exact absurd h (by decide)

/-- The engine never moves into `heal` once the retry counter has reached
the ceiling. -/
lemma stepW_no_heal_at_ceiling (env : EnvM) (p : Node × WStateM)
    (h : 3 ≤ p.2.retryCount) : (stepW env p).1 ≠ Node.heal := by
  obtain ⟨nd, s⟩ := p
  simp only at h
  cases nd <;> simp only [stepW]
  · cases env.planR <;> simp
  · cases env.genR s.plan <;> simp
  · cases hx : env.execR s.retryCount <;>
      exact execRouteNode_ne_heal _ (by simp; omega)
  · cases s.result <;> simp
  · cases s.result <;> split_ifs <;> simp
  · simp

/-- The inductive invariant: the retry counter of a reachable engine
configuration never exceeds 3, and on entry to the heal node it is at
most 2 (so the increment inside the heal handler cannot push it past 3). -/
lemma reachable_retry_inv (env : EnvM) (req : TestRequestM)
    (p : Node × WStateM) (h : ReachableW env req p) :
    p.2.retryCount ≤ 3 ∧ (p.1 = Node.heal → p.2.retryCount ≤ 2) := by
  induction h with
  | init =>
    exact ⟨by simp [initState], by simp⟩
  | @step q hq ih =>
    obtain ⟨nd, s⟩ := q
    obtain ⟨ih1, ih2⟩ := ih
    cases nd
    case plan =>
      cases hp : env.planR <;> simp [stepW, hp] <;> exact ih1
    case generate =>
      cases hp : env.genR s.plan <;> simp [stepW, hp] <;> exact ih1
    case execute =>
      cases hx : env.execR s.retryCount <;>
        simp only [stepW, hx] <;>
        refine ⟨ih1, fun hheal => ?_⟩ <;>
        have hroute := execRouteNode_heal_imp _ hheal <;>
        have := routeAfterExecution_heal_retry_lt _ hroute <;>
        simp only [] at this <;>
        omega
    case validate =>
      cases hr : s.result <;> simp [stepW, hr] <;> exact ih1
    case heal =>
      cases hr : s.result
      · simp only [stepW, hr]
        refine ⟨ih1, ?_⟩
        split_ifs <;> simp
      · simp only [stepW, hr]
        have h2 : s.retryCount ≤ 2 := ih2 rfl
        refine ⟨by simp; omega, ?_⟩
        split_ifs <;> simp
    case terminal =>
      exact ⟨ih1, by simp [stepW]⟩

/-- Scenario: every execution attempt fails with a truthy error; the run
visits heal exactly three times and terminates. -/
def stRetry3 : WStateM :=
  { initState reqC1 with retryCount := 3 }

set_option maxRecDepth 40000 in
/-- Claim C2: the retry counter never decreases across an engine step; it
never exceeds 3 in any reachable configuration; at the ceiling the heal
node cannot be entered again; and in the scenario of three consecutive
execution failures the engine visits heal exactly three times (no fourth
heal attempt), terminates, and ends with a failed result at the ceiling. -/
theorem c2_retry_monotone_bounded_heal_budget :
    (∀ (env : EnvM) (p : Node × WStateM),
      p.2.retryCount ≤ (stepW env p).2.retryCount) ∧
    (∀ (env : EnvM) (req : TestRequestM) (p : Node × WStateM),
      ReachableW env req p → p.2.retryCount ≤ 3) ∧
    (∀ (env : EnvM) (p : Node × WStateM),
      3 ≤ p.2.retryCount → (stepW env p).1 ≠ Node.heal) ∧
    runNodes envExecFail 12 (Node.plan, initState reqC1) =
      [Node.plan, Node.generate, Node.execute, Node.heal, Node.execute,
       Node.heal, Node.execute, Node.heal] ∧
    (runW envExecFail 12 (Node.plan, initState reqC1)).1 = Node.terminal ∧
    (runW envExecFail 12 (Node.plan, initState reqC1)).2.result.map (·.success)
      = some false ∧
    (runW envExecFail 12 (Node.plan, initState reqC1)).2.retryCount = 3 :=
  ⟨stepW_retry_mono,
   fun env req p h => (reachable_retry_inv env req p h).1,
   stepW_no_heal_at_ceiling,
   by decide, by decide, by decide, by decide⟩

/-- Witness for C2: the monotonicity and bound instantiated at the initial
configuration, and the no-reentry fact at a concrete ceiling state. -/
theorem c2_retry_monotone_bounded_heal_budget_witness :
    (initState reqC1).retryCount ≤
      (stepW envExecFail (Node.plan, initState reqC1)).2.retryCount ∧
    (initState reqC1).retryCount ≤ 3 ∧
    (stepW envExecFail (Node.execute, stRetry3)).1 ≠ Node.heal :=
  ⟨c2_retry_monotone_bounded_heal_budget.1 envExecFail
      (Node.plan, initState reqC1),
   c2_retry_monotone_bounded_heal_budget.2.1 envExecFail reqC1
      (Node.plan, initState reqC1) ReachableW.init,
   c2_retry_monotone_bounded_heal_budget.2.2.1 envExecFail
      (Node.execute, stRetry3) (by decide)⟩

end TunnelAI
